import Mathlib

/-!
Shallow embedding of the funding-rate arbitrage bot (kaplion/funding).

Floating-point values from the Python source are modelled as
rationals (`ℚ`); Python `int` as `ℤ`/`ℕ`.  Each definition mirrors
a function of the source tree (`src/`, `config/`), named after it.
Datetime-valued fields, logging and database/session plumbing are not
part of the embedded state; the arithmetic and control flow is kept
exactly as written in the source.
-/

namespace Funding

/-! ### Configuration (config/config.py) -/

/-- StrategyConfig (config/config.py): the numeric strategy thresholds. -/
structure StrategyConfig where
  min_funding_rate : ℚ
  max_spread : ℚ
  position_size_pct : ℚ
  max_positions : ℕ
deriving Repr, DecidableEq

/-- RiskConfig (config/config.py). -/
structure RiskConfig where
  max_coin_allocation : ℚ
  margin_ratio_warning : ℚ
  margin_ratio_critical : ℚ
  min_liquidation_distance : ℚ
  max_drawdown : ℚ
deriving Repr, DecidableEq

/-- TradingConfig (config/config.py): only the field the embedded code reads. -/
structure TradingConfig where
  min_order_value : ℚ
deriving Repr, DecidableEq

/-- Config (config/config.py): the sub-configurations the core logic reads. -/
structure Config where
  strategy : StrategyConfig
  risk : RiskConfig
  trading : TradingConfig
deriving Repr, DecidableEq

/-- The default field values declared in config/config.py. -/
def defaultConfig : Config :=
  { strategy :=
      { min_funding_rate := 3 / 10000      -- 0.0003
        max_spread := 1 / 1000             -- 0.001
        position_size_pct := 1 / 10        -- 0.1
        max_positions := 5 }
    risk :=
      { max_coin_allocation := 2 / 10      -- 0.2
        margin_ratio_warning := 7 / 10     -- 0.7
        margin_ratio_critical := 85 / 100  -- 0.85
        min_liquidation_distance := 15 / 100
        max_drawdown := 1 / 10 }
    trading := { min_order_value := 10 } }

/-! ### Data model (src/models.py, src/data_collector.py) -/

/-- PositionStatus (src/models.py). -/
inductive PositionStatus where
  | PENDING | OPEN | CLOSING | CLOSED | ERROR
deriving Repr, DecidableEq

/-- PositionSide (src/models.py). -/
inductive PositionSide where
  | LONG_SPOT_SHORT_PERP
  | SHORT_SPOT_LONG_PERP
deriving Repr, DecidableEq

/-- The `.value` string of a PositionSide (Python str-enum). -/
def PositionSide.value : PositionSide → String
  | .LONG_SPOT_SHORT_PERP => "long_spot_short_perp"
  | .SHORT_SPOT_LONG_PERP => "short_spot_long_perp"

/-- Position (src/models.py): the columns the embedded logic reads/writes. -/
structure Position where
  symbol : String
  side : PositionSide
  status : PositionStatus
  spot_quantity : ℚ
  spot_entry_price : ℚ
  spot_exit_price : Option ℚ
  futures_quantity : ℚ
  futures_entry_price : ℚ
  futures_exit_price : Option ℚ
  entry_funding_rate : ℚ
  accumulated_funding : ℚ
  spot_pnl : ℚ
  futures_pnl : ℚ
  total_fees : ℚ
  realized_pnl : ℚ
deriving Repr, DecidableEq

/-- Position.position_value (src/models.py). -/
def Position.position_value (p : Position) : ℚ :=
  p.spot_quantity * p.spot_entry_price

/-- FundingRateData (src/data_collector.py): fields the strategy/bot read. -/
structure FundingRateData where
  symbol : String
  funding_rate : ℚ
  mark_price : ℚ
deriving Repr, DecidableEq

/-- SpotFuturesSpread (src/data_collector.py). -/
structure SpotFuturesSpread where
  symbol : String
  spot_price : ℚ
  futures_price : ℚ
deriving Repr, DecidableEq

/-- SpotFuturesSpread.spread property (src/data_collector.py). -/
def SpotFuturesSpread.spread (s : SpotFuturesSpread) : ℚ :=
  if s.spot_price = 0 then 0
  else (s.futures_price - s.spot_price) / s.spot_price

/-! ### Accounting (src/accounting.py) -/

/-- PositionPnL (src/accounting.py), without the datetime-derived
`duration_hours` field. -/
structure PositionPnL where
  symbol : String
  spot_pnl : ℚ
  futures_pnl : ℚ
  funding_income : ℚ
  trading_fees : ℚ
  net_pnl : ℚ
  roi_pct : ℚ
deriving Repr, DecidableEq

/-- Python `a or b or c` over float-valued operands: `None` and `0.0` are
falsy.  Used for the exit-price resolution in
Accounting.calculate_position_pnl. -/
def pyOrFloat (a b : Option ℚ) (c : ℚ) : ℚ :=
  match a with
  | some x => if x ≠ 0 then x else
      match b with
      | some y => if y ≠ 0 then y else c
      | none => c
  | none =>
      match b with
      | some y => if y ≠ 0 then y else c
      | none => c

/-- Accounting.calculate_position_pnl (src/accounting.py lines 78-130). -/
def calculate_position_pnl (position : Position)
    (current_spot_price current_futures_price : Option ℚ) : PositionPnL :=
  let spot_exit := pyOrFloat position.spot_exit_price current_spot_price
      position.spot_entry_price
  let futures_exit := pyOrFloat position.futures_exit_price current_futures_price
      position.futures_entry_price
  let spot_pnl :=
    if position.side.value = "long_spot_short_perp" then
      (spot_exit - position.spot_entry_price) * position.spot_quantity
    else
      (position.spot_entry_price - spot_exit) * position.spot_quantity
  let futures_pnl :=
    if position.side.value = "long_spot_short_perp" then
      (position.futures_entry_price - futures_exit) * position.futures_quantity
    else
      (futures_exit - position.futures_entry_price) * position.futures_quantity
  let funding_income := position.accumulated_funding
  let trading_fees := position.total_fees
  let net_pnl := spot_pnl + futures_pnl + funding_income - trading_fees
  let position_value := position.spot_quantity * position.spot_entry_price
  let roi_pct := if position_value > 0 then net_pnl / position_value * 100 else 0
  { symbol := position.symbol
    spot_pnl := spot_pnl
    futures_pnl := futures_pnl
    funding_income := funding_income
    trading_fees := trading_fees
    net_pnl := net_pnl
    roi_pct := roi_pct }

/-- Accounting._calculate_apr (src/accounting.py lines 243-264). -/
def calculate_apr (pnl equity : ℚ) (days : ℤ) : ℚ :=
  if equity ≤ 0 ∨ days ≤ 0 then 0
  else
    let daily_return := pnl / equity / (days : ℚ)
    let apr := daily_return * 365 * 100
    apr

/-! ### Strategy (src/strategy.py) -/

/-- Signal (src/strategy.py). -/
inductive Signal where
  | ENTER_LONG_SPOT_SHORT_PERP
  | ENTER_SHORT_SPOT_LONG_PERP
  | EXIT
  | HOLD
deriving Repr, DecidableEq

/-- TradeSignal (src/strategy.py).  The `reason` strings keep the static
text of the source's messages, with the interpolated numbers dropped. -/
structure TradeSignal where
  signal : Signal
  symbol : String
  funding_rate : ℚ
  spread : ℚ
  reason : String
  position_size_usdt : ℚ := 0
  urgency : ℤ := 0
deriving Repr, DecidableEq

/-- Python `int()` applied to a float/rational: truncation toward zero. -/
def pyInt (q : ℚ) : ℤ :=
  if 0 ≤ q then ⌊q⌋ else ⌈q⌉

/-- Python `abs()` on a float/rational. -/
def pyAbs (q : ℚ) : ℚ :=
  if q < 0 then -q else q

/-- Python `max(a, b)` on floats/rationals. -/
def pyMax (a b : ℚ) : ℚ :=
  if a < b then b else a

/-- Python `min(a, b)` on ints. -/
def pyMinInt (a b : ℤ) : ℤ :=
  if b < a then b else a

theorem pyAbs_eq_abs (q : ℚ) : pyAbs q = |q| := by
  unfold pyAbs
  rcases lt_or_le q 0 with h | h
  · simp [h, abs_of_neg h]
  · simp [not_lt.mpr h, abs_of_nonneg h]

theorem pyMax_eq_max (a b : ℚ) : pyMax a b = max a b := by
  unfold pyMax
  rcases lt_or_le a b with h | h
  · simp [h, max_eq_right h.le]
  · simp [not_lt.mpr h, max_eq_left h]

/-- `spread.spread if spread else 0` as used throughout src/strategy.py. -/
def spreadOrZero : Option SpotFuturesSpread → ℚ
  | some s => s.spread
  | none => 0

/-- Strategy.calculate_position_size (src/strategy.py lines 44-72).
`current_allocation` is accepted (as in the source) but unused there. -/
def calculate_position_size (cfg : Config) (total_equity : ℚ)
    (current_allocation : ℚ) (symbol_allocation : ℚ := 0) : ℚ :=
  let position_size := total_equity * cfg.strategy.position_size_pct
  let max_coin_allocation := cfg.risk.max_coin_allocation
  let position_size :=
    if symbol_allocation + position_size / total_equity > max_coin_allocation then
      (max_coin_allocation - symbol_allocation) * total_equity
    else position_size
  if position_size < cfg.trading.min_order_value then 0
  else pyMax position_size 0

/-- Strategy.should_enter_position (src/strategy.py lines 74-182). -/
def should_enter_position (cfg : Config) (funding_data : FundingRateData)
    (spread : Option SpotFuturesSpread) (open_positions : List Position)
    (total_equity : ℚ) : TradeSignal :=
  let symbol := funding_data.symbol
  let funding_rate := funding_data.funding_rate
  let active_positions :=
    open_positions.filter (fun p => p.status = PositionStatus.OPEN)
  if active_positions.length ≥ cfg.strategy.max_positions then
    { signal := .HOLD, symbol := symbol, funding_rate := funding_rate
      spread := spreadOrZero spread, reason := "Max positions limit reached" }
  else
    let symbol_positions := active_positions.filter (fun p => p.symbol = symbol)
    if symbol_positions ≠ [] then
      { signal := .HOLD, symbol := symbol, funding_rate := funding_rate
        spread := spreadOrZero spread
        reason := "Already have position in this symbol" }
    else
      let min_funding := cfg.strategy.min_funding_rate
      if pyAbs funding_rate < min_funding then
        { signal := .HOLD, symbol := symbol, funding_rate := funding_rate
          spread := spreadOrZero spread
          reason := "Funding rate below threshold" }
      else
        -- remainder of the function after the spread check
        let rest : Unit → TradeSignal := fun _ =>
          let current_allocation :=
            if total_equity > 0 then
              (active_positions.map Position.position_value).sum / total_equity
            else 0
          let position_size :=
            calculate_position_size cfg total_equity current_allocation
          if position_size = 0 then
            { signal := .HOLD, symbol := symbol, funding_rate := funding_rate
              spread := spreadOrZero spread
              reason := "Position size too small or allocation limit reached" }
          else
            let sigReason : Signal × String :=
              if funding_rate > 0 then
                (.ENTER_LONG_SPOT_SHORT_PERP, "Positive funding")
              else
                (.ENTER_SHORT_SPOT_LONG_PERP, "Negative funding")
            let urgency := pyMinInt (pyInt (pyAbs funding_rate / min_funding)) 10
            { signal := sigReason.1, symbol := symbol
              funding_rate := funding_rate, spread := spreadOrZero spread
              reason := sigReason.2, position_size_usdt := position_size
              urgency := urgency }
        match spread with
        | some s =>
            if pyAbs s.spread > cfg.strategy.max_spread then
              { signal := .HOLD, symbol := symbol, funding_rate := funding_rate
                spread := s.spread, reason := "Spread exceeds max" }
            else rest ()
        | none => rest ()

/-- Strategy.should_exit_position (src/strategy.py lines 184-265). -/
def should_exit_position (cfg : Config) (position : Position)
    (funding_data : Option FundingRateData) (spread : Option SpotFuturesSpread)
    (margin_ratio : Option ℚ := none) : TradeSignal :=
  let symbol := position.symbol
  let current_funding :=
    match funding_data with
    | some f => f.funding_rate
    | none => 0
  let current_spread := spreadOrZero spread
  let min_funding := cfg.strategy.min_funding_rate
  let afterFunding : Unit → TradeSignal := fun _ =>
    if pyAbs current_spread > cfg.strategy.max_spread * 2 then
      { signal := .EXIT, symbol := symbol, funding_rate := current_funding
        spread := current_spread, reason := "Spread widened", urgency := 7 }
    else
      match margin_ratio with
      | some mr =>
          if mr ≥ cfg.risk.margin_ratio_critical then
            { signal := .EXIT, symbol := symbol
              funding_rate := current_funding, spread := current_spread
              reason := "Critical margin ratio", urgency := 10 }
          else
            { signal := .HOLD, symbol := symbol
              funding_rate := current_funding, spread := current_spread
              reason := "Continue holding position" }
      | none =>
          { signal := .HOLD, symbol := symbol
            funding_rate := current_funding, spread := current_spread
            reason := "Continue holding position" }
  if position.side = PositionSide.LONG_SPOT_SHORT_PERP then
    if current_funding ≤ min_funding * (1/2) then
      { signal := .EXIT, symbol := symbol, funding_rate := current_funding
        spread := current_spread, reason := "Funding rate dropped"
        urgency := 5 }
    else afterFunding ()
  else
    if current_funding ≥ -min_funding * (1/2) then
      { signal := .EXIT, symbol := symbol, funding_rate := current_funding
        spread := current_spread, reason := "Funding rate rose", urgency := 5 }
    else afterFunding ()

/-! ### Risk manager (src/risk_manager.py) -/

/-- RiskLevel (src/risk_manager.py). -/
inductive RiskLevel where
  | LOW | MEDIUM | HIGH | CRITICAL
deriving Repr, DecidableEq

/-- Index of a RiskLevel in the order list of RiskLevel.__lt__
(src/risk_manager.py lines 24-29). -/
def RiskLevel.orderIndex : RiskLevel → ℕ
  | .LOW => 0
  | .MEDIUM => 1
  | .HIGH => 2
  | .CRITICAL => 3

/-- The `<` comparison of RiskLevel (src/risk_manager.py). -/
def RiskLevel.ltb (a b : RiskLevel) : Bool :=
  a.orderIndex < b.orderIndex

/-- The recurring pattern `if risk_level < RiskLevel.HIGH: risk_level =
RiskLevel.HIGH` of RiskManager.calculate_risk_metrics. -/
def bumpHigh (rl : RiskLevel) : RiskLevel :=
  if rl.ltb RiskLevel.HIGH then RiskLevel.HIGH else rl

/-- RiskAlert (src/risk_manager.py), without the timestamp field. -/
structure RiskAlert where
  level : RiskLevel
  alert_type : String
  message : String
  symbol : Option String := none
  value : Option ℚ := none
  threshold : Option ℚ := none
deriving Repr, DecidableEq

/-- RiskMetrics (src/risk_manager.py). -/
structure RiskMetrics where
  margin_ratio : Option ℚ
  total_equity : ℚ
  total_position_value : ℚ
  position_count : ℕ
  max_position_value : ℚ
  min_liquidation_distance : Option ℚ
  current_drawdown : ℚ
  risk_level : RiskLevel
  alerts : List RiskAlert
deriving Repr, DecidableEq

/-- One entry of the futures-position list returned by
DataCollector.get_futures_positions, as read by the risk manager. -/
structure FuturesPositionInfo where
  symbol : String
  liquidation_price : ℚ
deriving Repr, DecidableEq

/-- Python `max(values, default=0)`: maximum of a list, default if empty. -/
def pyMaxList (l : List ℚ) (dflt : ℚ) : ℚ :=
  match l with
  | [] => dflt
  | x :: xs => xs.foldl pyMax x

/-- The minimum-liquidation-distance loop of
RiskManager.calculate_risk_metrics (src/risk_manager.py lines 127-141). -/
def minLiqDistance (active_positions : List Position)
    (futures_positions : List FuturesPositionInfo) : Option ℚ :=
  futures_positions.foldl (fun (acc : Option ℚ) (fp : FuturesPositionInfo) =>
    if fp.liquidation_price > 0 then
      let symbol := fp.symbol.replace "/USDT:USDT" "USDT"
      active_positions.foldl (fun (acc2 : Option ℚ) (pos : Position) =>
        if pos.symbol = symbol then
          let current_price := pos.futures_entry_price
          if current_price > 0 then
            let distance :=
              pyAbs (current_price - fp.liquidation_price) / current_price
            match acc2 with
            | none => some distance
            | some m => if distance < m then some distance else some m
          else acc2
        else acc2) acc
    else acc) none

/-- The risk-level cascade of RiskManager.calculate_risk_metrics
(src/risk_manager.py lines 143-204), factored out of the metric
computation: margin-ratio check, liquidation-distance check, drawdown
check, then MEDIUM when positions exist with no other trigger. -/
def riskLevelFrom (cfg : Config) (margin_ratio min_liq_distance : Option ℚ)
    (drawdown : ℚ) (position_count : ℕ) : RiskLevel :=
  let risk_level := RiskLevel.LOW
  let risk_level :=
    match margin_ratio with
    | some mr =>
        if mr ≥ cfg.risk.margin_ratio_critical then RiskLevel.CRITICAL
        else if mr ≥ cfg.risk.margin_ratio_warning then bumpHigh risk_level
        else risk_level
    | none => risk_level
  let risk_level :=
    match min_liq_distance with
    | some d =>
        if d < cfg.risk.min_liquidation_distance then bumpHigh risk_level
        else risk_level
    | none => risk_level
  let risk_level :=
    if drawdown ≥ cfg.risk.max_drawdown then bumpHigh risk_level
    else risk_level
  if risk_level = RiskLevel.LOW ∧ 0 < position_count then RiskLevel.MEDIUM
  else risk_level

/-- The alerts generated alongside the risk-level cascade
(src/risk_manager.py lines 143-204), with the same branch conditions. -/
def riskAlertsFrom (cfg : Config) (margin_ratio min_liq_distance : Option ℚ)
    (drawdown : ℚ) : List RiskAlert :=
  let alerts : List RiskAlert := []
  let alerts :=
    match margin_ratio with
    | some mr =>
        if mr ≥ cfg.risk.margin_ratio_critical then
          alerts ++ [{ level := RiskLevel.CRITICAL
                       alert_type := "margin_ratio"
                       message := "Critical margin ratio"
                       value := some mr
                       threshold := some cfg.risk.margin_ratio_critical }]
        else if mr ≥ cfg.risk.margin_ratio_warning then
          alerts ++ [{ level := RiskLevel.HIGH
                       alert_type := "margin_ratio"
                       message := "High margin ratio"
                       value := some mr
                       threshold := some cfg.risk.margin_ratio_warning }]
        else alerts
    | none => alerts
  let alerts :=
    match min_liq_distance with
    | some d =>
        if d < cfg.risk.min_liquidation_distance then
          alerts ++ [{ level := RiskLevel.HIGH
                       alert_type := "liquidation_distance"
                       message := "Low liquidation distance"
                       value := some d
                       threshold := some cfg.risk.min_liquidation_distance }]
        else alerts
    | none => alerts
  if drawdown ≥ cfg.risk.max_drawdown then
    alerts ++ [{ level := RiskLevel.HIGH
                 alert_type := "drawdown"
                 message := "Max drawdown reached"
                 value := some drawdown
                 threshold := some cfg.risk.max_drawdown }]
  else alerts

/-- RiskManager.calculate_risk_metrics (src/risk_manager.py lines 91-219)
as a pure function of the account data fetched at its start and of the
`_peak_equity` field before the call. -/
def calculate_risk_metrics (cfg : Config) (peak_equity total_equity : ℚ)
    (margin_ratio : Option ℚ) (futures_positions : List FuturesPositionInfo)
    (positions : List Position) : RiskMetrics :=
  let peak :=
    if total_equity > peak_equity then total_equity else peak_equity
  let drawdown := if peak > 0 then (peak - total_equity) / peak else 0
  let active_positions :=
    positions.filter (fun p => p.status = PositionStatus.OPEN)
  let position_count := active_positions.length
  let total_position_value :=
    (active_positions.map Position.position_value).sum
  let max_position_value :=
    pyMaxList (active_positions.map Position.position_value) 0
  let min_liq_distance := minLiqDistance active_positions futures_positions
  { margin_ratio := margin_ratio
    total_equity := total_equity
    total_position_value := total_position_value
    position_count := position_count
    max_position_value := max_position_value
    min_liquidation_distance := min_liq_distance
    current_drawdown := drawdown
    risk_level :=
      riskLevelFrom cfg margin_ratio min_liq_distance drawdown position_count
    alerts := riskAlertsFrom cfg margin_ratio min_liq_distance drawdown }

/-- RiskManager.check_position_limits (src/risk_manager.py lines 221-266). -/
def check_position_limits (cfg : Config) (positions : List Position)
    (new_position_value : ℚ) (symbol : String) (total_equity : ℚ) :
    Bool × Option String :=
  let active_positions :=
    positions.filter (fun p => p.status = PositionStatus.OPEN)
  if active_positions.length ≥ cfg.strategy.max_positions then
    (false, some "Maximum position count reached")
  else
    let symbol_positions := active_positions.filter (fun p => p.symbol = symbol)
    if symbol_positions ≠ [] then
      (false, some "Already have position in symbol")
    else
      let symbol_allocation :=
        if total_equity > 0 then
          (symbol_positions.map Position.position_value).sum / total_equity
        else 0
      let new_allocation :=
        if total_equity > 0 then new_position_value / total_equity else 0
      if symbol_allocation + new_allocation > cfg.risk.max_coin_allocation then
        (false, some "Would exceed max allocation")
      else
        let total_allocation :=
          if total_equity > 0 then
            (active_positions.map Position.position_value).sum / total_equity
          else 0
        let position_size_pct := cfg.strategy.position_size_pct
        let max_total_allocation :=
          (cfg.strategy.max_positions : ℚ) * position_size_pct
        if total_allocation + new_allocation > max_total_allocation then
          (false, some "Would exceed total allocation limit")
        else (true, none)

/-- RiskManager.should_pause_trading (src/risk_manager.py lines 268-290),
over the same pure inputs as `calculate_risk_metrics`. -/
def should_pause_trading (cfg : Config) (peak_equity total_equity : ℚ)
    (margin_ratio : Option ℚ) (futures_positions : List FuturesPositionInfo)
    (positions : List Position) : Bool × Option String :=
  let metrics := calculate_risk_metrics cfg peak_equity total_equity
    margin_ratio futures_positions positions
  if metrics.risk_level = RiskLevel.CRITICAL then
    (true, some "Critical risk level reached")
  else if metrics.current_drawdown ≥ cfg.risk.max_drawdown then
    (true, some "Max drawdown exceeded")
  else (false, none)

/-! ### Executor (src/executor.py) -/

/-- A filled order as read back by Executor.close_position: its fill
price and the fee charged. -/
structure FilledOrder where
  filled_price : ℚ
  fee : ℚ
deriving Repr, DecidableEq

/-- The position-update logic of Executor.close_position
(src/executor.py lines 604-638, real-trading path): exit prices, leg
P&Ls, fees and realized P&L after the two market close orders. -/
def executor_close_position (position : Position)
    (spot_order futures_order : Option FilledOrder) : Position :=
  let position := { position with status := PositionStatus.CLOSING }
  let position :=
    match spot_order with
    | some o =>
        { position with
          spot_exit_price := some o.filled_price
          spot_pnl :=
            if position.side = PositionSide.LONG_SPOT_SHORT_PERP then
              (o.filled_price - position.spot_entry_price) *
                position.spot_quantity
            else
              (position.spot_entry_price - o.filled_price) *
                position.spot_quantity
          total_fees := position.total_fees + o.fee }
    | none => position
  let position :=
    match futures_order with
    | some o =>
        { position with
          futures_exit_price := some o.filled_price
          futures_pnl :=
            if position.side = PositionSide.LONG_SPOT_SHORT_PERP then
              (position.futures_entry_price - o.filled_price) *
                position.futures_quantity
            else
              (o.filled_price - position.futures_entry_price) *
                position.futures_quantity
          total_fees := position.total_fees + o.fee }
    | none => position
  { position with
    realized_pnl := position.spot_pnl + position.futures_pnl +
      position.accumulated_funding - position.total_fees
    status := PositionStatus.CLOSED }

/-! ### Paper trader (src/paper_trader.py) -/

/-- PaperPosition (src/paper_trader.py); `side` is a raw string there. -/
structure PaperPosition where
  symbol : String
  side : String
  spot_quantity : ℚ
  spot_entry_price : ℚ
  futures_quantity : ℚ
  futures_entry_price : ℚ
  entry_funding_rate : ℚ
  accumulated_funding : ℚ := 0
  funding_payments_count : ℕ := 0
deriving Repr, DecidableEq

/-- The PaperTrader state (src/paper_trader.py): balances and the open
positions (the `symbol -> position` dict, as a list keyed by symbol). -/
structure PaperTrader where
  initial_balance : ℚ
  spot_balance : ℚ
  futures_balance : ℚ
  positions : List PaperPosition
deriving Repr, DecidableEq

/-- PaperTrader.__init__ (src/paper_trader.py lines 59-76). -/
def PaperTrader.init (initial_balance : ℚ) : PaperTrader :=
  { initial_balance := initial_balance
    spot_balance := initial_balance / 2
    futures_balance := initial_balance / 2
    positions := [] }

/-- Dict lookup `self.positions[symbol]` / `symbol in self.positions`. -/
def PaperTrader.findPosition (pt : PaperTrader) (symbol : String) :
    Option PaperPosition :=
  pt.positions.find? (fun p => p.symbol == symbol)

/-- Result of PaperTrader.open_position: the new trader state plus the
fields of the returned dict that the callers read. -/
structure PaperOpenResult where
  trader : PaperTrader
  success : Bool
  error : Option String := none
  total_fee : ℚ := 0
deriving Repr, DecidableEq

/-- PaperTrader.open_position (src/paper_trader.py lines 101-222). -/
def PaperTrader.open_position (pt : PaperTrader) (symbol side : String)
    (size_usdt funding_rate spot_price futures_price : ℚ) :
    PaperOpenResult :=
  if (pt.findPosition symbol).isSome then
    { trader := pt, success := false
      error := some "Already have position in symbol" }
  else
    let spot_quantity := size_usdt / spot_price
    let futures_quantity := size_usdt / futures_price
    -- fees: 0.1% for spot, 0.04% for futures
    let spot_fee := size_usdt * (1/1000)
    let futures_fee := size_usdt * (4/10000)
    let total_fee := spot_fee + futures_fee
    let required_balance := size_usdt + total_fee
    let proceed : Unit → PaperOpenResult := fun _ =>
      let pt' : PaperTrader :=
        { pt with
          spot_balance := pt.spot_balance - (size_usdt / 2 + spot_fee)
          futures_balance :=
            pt.futures_balance - (size_usdt / 2 + futures_fee)
          positions := pt.positions ++
            [{ symbol := symbol, side := side
               spot_quantity := spot_quantity
               spot_entry_price := spot_price
               futures_quantity := futures_quantity
               futures_entry_price := futures_price
               entry_funding_rate := funding_rate }] }
      { trader := pt', success := true, total_fee := total_fee }
    if side = "long_spot_short_perp" then
      if pt.spot_balance < required_balance / 2 then
        { trader := pt, success := false
          error := some "Insufficient spot balance" }
      else if pt.futures_balance < required_balance / 2 then
        { trader := pt, success := false
          error := some "Insufficient futures balance" }
      else proceed ()
    else
      if pt.spot_balance < required_balance / 2 then
        { trader := pt, success := false
          error := some "Insufficient spot balance" }
      else if pt.futures_balance < required_balance / 2 then
        { trader := pt, success := false
          error := some "Insufficient futures balance" }
      else proceed ()

/-- Result of PaperTrader.close_position: the new trader state plus the
fields of the returned dict. -/
structure PaperCloseResult where
  trader : PaperTrader
  success : Bool
  error : Option String := none
  spot_pnl : ℚ := 0
  futures_pnl : ℚ := 0
  accumulated_funding : ℚ := 0
  total_fees : ℚ := 0
  realized_pnl : ℚ := 0
deriving Repr, DecidableEq

/-- PaperTrader.close_position (src/paper_trader.py lines 224-320). -/
def PaperTrader.close_position (pt : PaperTrader) (symbol : String)
    (spot_price futures_price : ℚ) : PaperCloseResult :=
  match pt.findPosition symbol with
  | none => { trader := pt, success := false
              error := some "No position found" }
  | some position =>
      let spot_pnl :=
        if position.side = "long_spot_short_perp" then
          (spot_price - position.spot_entry_price) * position.spot_quantity
        else
          (position.spot_entry_price - spot_price) * position.spot_quantity
      let futures_pnl :=
        if position.side = "long_spot_short_perp" then
          (position.futures_entry_price - futures_price) *
            position.futures_quantity
        else
          (futures_price - position.futures_entry_price) *
            position.futures_quantity
      let close_spot_value := position.spot_quantity * spot_price
      let close_futures_value := position.futures_quantity * futures_price
      let spot_fee := close_spot_value * (1/1000)
      let futures_fee := close_futures_value * (4/10000)
      let total_fee := spot_fee + futures_fee
      let realized_pnl :=
        spot_pnl + futures_pnl + position.accumulated_funding - total_fee
      let pt' : PaperTrader :=
        { pt with
          spot_balance :=
            pt.spot_balance + (close_spot_value - spot_fee + spot_pnl)
          futures_balance :=
            pt.futures_balance + (close_futures_value - futures_fee +
              futures_pnl)
          positions := pt.positions.filter (fun p => p.symbol != symbol) }
      { trader := pt', success := true
        spot_pnl := spot_pnl
        futures_pnl := futures_pnl
        accumulated_funding := position.accumulated_funding
        total_fees := total_fee
        realized_pnl := realized_pnl }

/-! ### Funding payments (src/bot.py, src/paper_trader.py) -/

/-- The per-position funding-payment amount computed in
FundingArbitrageBot._check_funding_payments (src/bot.py lines 297-308). -/
def bot_funding_payment_amount (position : Position)
    (funding_data : FundingRateData) : ℚ :=
  let funding_rate := funding_data.funding_rate
  let position_value := position.futures_quantity * funding_data.mark_price
  if position.side.value = "long_spot_short_perp" then
    position_value * funding_rate
  else
    -position_value * funding_rate

/-- The per-position funding-payment amount computed in
PaperTrader.process_funding (src/paper_trader.py lines 346-356), given
the funding rate and the mark price resolved for the symbol. -/
def paper_funding_payment_amount (position : PaperPosition)
    (funding_rate mark_price : ℚ) : ℚ :=
  let position_value := position.futures_quantity * mark_price
  if position.side = "long_spot_short_perp" then
    position_value * funding_rate
  else
    -position_value * funding_rate

/-- A sample open long-spot/short-perp position, used as concrete input. -/
def samplePositionLong : Position :=
  { symbol := "BTCUSDT"
    side := .LONG_SPOT_SHORT_PERP
    status := .OPEN
    spot_quantity := 1/50
    spot_entry_price := 50000
    spot_exit_price := none
    futures_quantity := 1/50
    futures_entry_price := 50000
    futures_exit_price := none
    entry_funding_rate := 5/10000
    accumulated_funding := 0
    spot_pnl := 0
    futures_pnl := 0
    total_fees := 0
    realized_pnl := 0 }

/-- The same sample position on the short-spot/long-perp side. -/
def samplePositionShort : Position :=
  { samplePositionLong with side := .SHORT_SPOT_LONG_PERP
                            entry_funding_rate := -5/10000 }

end Funding

namespace Funding

/-- C2: `_calculate_apr` returns 0 when `equity ≤ 0` or `days ≤ 0`, and
otherwise returns exactly `pnl / equity / days * 365 * 100`. -/
theorem calculate_apr_spec (pnl equity : ℚ) (days : ℤ) :
    calculate_apr pnl equity days =
      if equity ≤ 0 ∨ days ≤ 0 then 0
      else pnl / equity / (days : ℚ) * 365 * 100 := by
  unfold calculate_apr
  split <;> rfl

/-- C3: whenever `|funding_rate| < min_funding_rate`, `should_enter_position`
returns a HOLD signal, for every spread value (including no spread data),
every open-position list and every equity. -/
theorem enter_hold_below_min_funding (cfg : Config)
    (funding_data : FundingRateData) (spread : Option SpotFuturesSpread)
    (open_positions : List Position) (total_equity : ℚ)
    (h : |funding_data.funding_rate| < cfg.strategy.min_funding_rate) :
    (should_enter_position cfg funding_data spread open_positions
        total_equity).signal = Signal.HOLD := by
  rw [← pyAbs_eq_abs] at h
  simp only [should_enter_position]
  split_ifs with h1 h2
  · rfl
  · rfl
  · rfl

/-- Witness for `enter_hold_below_min_funding` at a concrete input. -/
theorem enter_hold_below_min_funding_witness :
    |(1 : ℚ)/10000| < defaultConfig.strategy.min_funding_rate ∧
      (should_enter_position defaultConfig
          { symbol := "BTCUSDT", funding_rate := 1/10000, mark_price := 50000 }
          none [] 10000).signal = Signal.HOLD :=
  ⟨by rw [abs_of_pos (by norm_num)]; norm_num [defaultConfig],
    enter_hold_below_min_funding defaultConfig
      { symbol := "BTCUSDT", funding_rate := 1/10000, mark_price := 50000 }
      none [] 10000
      (by rw [abs_of_pos (by norm_num)]; norm_num [defaultConfig])⟩

/-- C6: with the default configuration, funding_rate = 0.0005,
spot = 50000, futures = 50020, equity = 10000 and no open positions,
the entry signal is ENTER_LONG_SPOT_SHORT_PERP with size 1000 USDT. -/
theorem example_enter_signal :
    (should_enter_position defaultConfig
        { symbol := "BTCUSDT", funding_rate := 5/10000, mark_price := 50000 }
        (some { symbol := "BTCUSDT", spot_price := 50000
                futures_price := 50020 })
        [] 10000).signal = Signal.ENTER_LONG_SPOT_SHORT_PERP ∧
      (should_enter_position defaultConfig
          { symbol := "BTCUSDT", funding_rate := 5/10000, mark_price := 50000 }
          (some { symbol := "BTCUSDT", spot_price := 50000
                  futures_price := 50020 })
          [] 10000).position_size_usdt = 1000 := by
  constructor <;>
    norm_num [should_enter_position, calculate_position_size, spreadOrZero,
      SpotFuturesSpread.spread, pyAbs, pyInt, pyMinInt, pyMax,
      Position.position_value, defaultConfig]

/-- C5 counterexample: with all market data unavailable
(`funding_data = none`, `spread = none`, `margin_ratio = none`) and the
default configuration, `should_exit_position` does NOT return HOLD —
for either position side it returns an exit signal. -/
theorem exit_on_missing_data_not_hold :
    (should_exit_position defaultConfig samplePositionLong none none
        none).signal ≠ Signal.HOLD ∧
      (should_exit_position defaultConfig samplePositionShort none none
          none).signal ≠ Signal.HOLD := by
  constructor <;>
    · norm_num [should_exit_position, spreadOrZero, pyAbs,
        samplePositionLong, samplePositionShort, defaultConfig]
      decide

/-- C5 amended: when no market data is available for a position
(`funding_data = none`, `spread = none`, `margin_ratio = none`) and
`min_funding_rate ≥ 0`, `should_exit_position` returns an EXIT signal
(the missing funding rate is treated as 0, which crosses the
half-threshold exit bound) — for positions of either side; the exit
evaluation is not skipped. -/
theorem exit_signal_on_missing_data (cfg : Config) (position : Position)
    (h : 0 ≤ cfg.strategy.min_funding_rate) :
    (should_exit_position cfg position none none none).signal =
      Signal.EXIT := by
  simp only [should_exit_position, spreadOrZero]
  split_ifs with h1 h2 h3 h4 h5
  · rfl
  · rfl
  · exfalso; push_neg at h2; linarith
  · rfl
  · rfl
  · exfalso; push_neg at h4; linarith

/-- Witness for `exit_signal_on_missing_data` at a concrete input. -/
theorem exit_signal_on_missing_data_witness :
    (0 : ℚ) ≤ defaultConfig.strategy.min_funding_rate ∧
      (should_exit_position defaultConfig samplePositionShort none none
          none).signal = Signal.EXIT :=
  ⟨by norm_num [defaultConfig],
    exit_signal_on_missing_data defaultConfig samplePositionShort
      (by norm_num [defaultConfig])⟩

/-- C10: for positive equity, `calculate_position_size` is never negative,
and is either 0 or a value between `min_order_value` and
`total_equity * position_size_pct`. -/
theorem calculate_position_size_bounds (cfg : Config)
    (total_equity current_allocation symbol_allocation : ℚ)
    (h : 0 < total_equity) :
    0 ≤ calculate_position_size cfg total_equity current_allocation
        symbol_allocation ∧
      (calculate_position_size cfg total_equity current_allocation
          symbol_allocation = 0 ∨
        (cfg.trading.min_order_value ≤
            calculate_position_size cfg total_equity current_allocation
              symbol_allocation ∧
          calculate_position_size cfg total_equity current_allocation
              symbol_allocation ≤
            total_equity * cfg.strategy.position_size_pct)) := by
  have hne : total_equity ≠ 0 := ne_of_gt h
  simp only [calculate_position_size, pyMax_eq_max]
  split_ifs with hcap hmin hmin'
  · exact ⟨le_refl 0, Or.inl rfl⟩
  · -- capped, at least min_order_value
    push_neg at hmin
    rcases le_or_lt ((cfg.risk.max_coin_allocation - symbol_allocation) *
        total_equity) 0 with hle | hpos
    · exact ⟨le_max_right _ 0, Or.inl (max_eq_right hle)⟩
    · have hpct : cfg.risk.max_coin_allocation - symbol_allocation <
          cfg.strategy.position_size_pct := by
        have hdiv : total_equity * cfg.strategy.position_size_pct /
            total_equity = cfg.strategy.position_size_pct :=
          mul_div_cancel_left₀ _ hne
        rw [gt_iff_lt] at hcap
        nlinarith [hcap, hdiv.symm ▸ hcap]
      have hlt : (cfg.risk.max_coin_allocation - symbol_allocation) *
          total_equity < total_equity * cfg.strategy.position_size_pct := by
        rw [mul_comm total_equity]
        exact mul_lt_mul_of_pos_right hpct h
      refine ⟨le_max_right _ 0, Or.inr ⟨?_, ?_⟩⟩
      · rw [max_eq_left hpos.le]; exact hmin
      · rw [max_eq_left hpos.le]; exact hlt.le
  · exact ⟨le_refl 0, Or.inl rfl⟩
  · push_neg at hmin'
    rcases le_or_lt (total_equity * cfg.strategy.position_size_pct) 0 with
      hle | hpos
    · exact ⟨le_max_right _ 0, Or.inl (max_eq_right hle)⟩
    · rw [max_eq_left hpos.le]
      exact ⟨hpos.le, Or.inr ⟨hmin', le_refl _⟩⟩

/-- C1: in all three P&L computations — Accounting.calculate_position_pnl,
Executor.close_position and PaperTrader.close_position — the computed
net/realized P&L equals spot_pnl + futures_pnl + accumulated funding −
total fees, with the leg P&Ls given by (exit − entry) × quantity for the
long leg and (entry − exit) × quantity for the short leg according to the
position's side. -/
theorem pnl_decomposition (p : Position) (cs cf : Option ℚ)
    (so fo : Option FilledOrder) (pt : PaperTrader) (symbol : String)
    (sp fpr : ℚ) :
    ((calculate_position_pnl p cs cf).net_pnl =
        (calculate_position_pnl p cs cf).spot_pnl +
          (calculate_position_pnl p cs cf).futures_pnl +
          (calculate_position_pnl p cs cf).funding_income -
          (calculate_position_pnl p cs cf).trading_fees ∧
      (calculate_position_pnl p cs cf).spot_pnl =
        (if p.side.value = "long_spot_short_perp" then
          (pyOrFloat p.spot_exit_price cs p.spot_entry_price -
            p.spot_entry_price) * p.spot_quantity
        else
          (p.spot_entry_price -
            pyOrFloat p.spot_exit_price cs p.spot_entry_price) *
            p.spot_quantity) ∧
      (calculate_position_pnl p cs cf).futures_pnl =
        (if p.side.value = "long_spot_short_perp" then
          (p.futures_entry_price -
            pyOrFloat p.futures_exit_price cf p.futures_entry_price) *
            p.futures_quantity
        else
          (pyOrFloat p.futures_exit_price cf p.futures_entry_price -
            p.futures_entry_price) * p.futures_quantity)) ∧
    ((executor_close_position p so fo).realized_pnl =
        (executor_close_position p so fo).spot_pnl +
          (executor_close_position p so fo).futures_pnl +
          (executor_close_position p so fo).accumulated_funding -
          (executor_close_position p so fo).total_fees ∧
      (executor_close_position p so fo).spot_pnl =
        (match so with
         | some o =>
            if p.side = PositionSide.LONG_SPOT_SHORT_PERP then
              (o.filled_price - p.spot_entry_price) * p.spot_quantity
            else (p.spot_entry_price - o.filled_price) * p.spot_quantity
         | none => p.spot_pnl) ∧
      (executor_close_position p so fo).futures_pnl =
        (match fo with
         | some o =>
            if p.side = PositionSide.LONG_SPOT_SHORT_PERP then
              (p.futures_entry_price - o.filled_price) * p.futures_quantity
            else (o.filled_price - p.futures_entry_price) *
              p.futures_quantity
         | none => p.futures_pnl)) ∧
    ((pt.close_position symbol sp fpr).realized_pnl =
        (pt.close_position symbol sp fpr).spot_pnl +
          (pt.close_position symbol sp fpr).futures_pnl +
          (pt.close_position symbol sp fpr).accumulated_funding -
          (pt.close_position symbol sp fpr).total_fees ∧
      (pt.close_position symbol sp fpr).spot_pnl =
        (match pt.findPosition symbol with
         | some pos =>
            if pos.side = "long_spot_short_perp" then
              (sp - pos.spot_entry_price) * pos.spot_quantity
            else (pos.spot_entry_price - sp) * pos.spot_quantity
         | none => 0) ∧
      (pt.close_position symbol sp fpr).futures_pnl =
        (match pt.findPosition symbol with
         | some pos =>
            if pos.side = "long_spot_short_perp" then
              (pos.futures_entry_price - fpr) * pos.futures_quantity
            else (fpr - pos.futures_entry_price) * pos.futures_quantity
         | none => 0)) := by
  refine ⟨⟨rfl, rfl, rfl⟩, ?_, ?_⟩
  · cases so <;> cases fo <;> exact ⟨rfl, rfl, rfl⟩
  · cases h : pt.findPosition symbol
    · simp [PaperTrader.close_position, h]
    · simp [PaperTrader.close_position, h]

/-- C4: with positive equity, if the open allocation already held in a
symbol plus the new position's allocation would exceed
max_coin_allocation, check_position_limits rejects the new position. -/
theorem check_position_limits_rejects_overallocation (cfg : Config)
    (positions : List Position) (new_position_value : ℚ) (symbol : String)
    (total_equity : ℚ) (h : total_equity > 0)
    (halloc :
      (((positions.filter (fun p => p.status = PositionStatus.OPEN)).filter
            (fun p => p.symbol = symbol)).map Position.position_value).sum /
          total_equity + new_position_value / total_equity >
        cfg.risk.max_coin_allocation) :
    (check_position_limits cfg positions new_position_value symbol
        total_equity).1 = false := by
  simp only [check_position_limits]
  split_ifs with h1 h2
  · rfl
  · rfl
  · rfl

/-- Witness for `check_position_limits_rejects_overallocation` at a
concrete input. -/
theorem check_position_limits_rejects_overallocation_witness :
    ((10000 : ℚ) > 0 ∧
      (((([] : List Position).filter
            (fun p => p.status = PositionStatus.OPEN)).filter
            (fun p => p.symbol = "BTCUSDT")).map
          Position.position_value).sum / 10000 + 3000 / 10000 >
        defaultConfig.risk.max_coin_allocation) ∧
      (check_position_limits defaultConfig [] 3000 "BTCUSDT" 10000).1 =
        false :=
  ⟨⟨by norm_num, by norm_num [defaultConfig]⟩,
    check_position_limits_rejects_overallocation defaultConfig [] 3000
      "BTCUSDT" 10000 (by norm_num) (by norm_num [defaultConfig])⟩

/-- Helper: a margin ratio at or above the critical threshold forces the
risk-level cascade to CRITICAL, whatever the other inputs. -/
theorem riskLevelFrom_critical (cfg : Config) (mr : ℚ)
    (min_liq : Option ℚ) (dd : ℚ) (count : ℕ)
    (h : mr ≥ cfg.risk.margin_ratio_critical) :
    riskLevelFrom cfg (some mr) min_liq dd count = RiskLevel.CRITICAL := by
  simp only [riskLevelFrom]
  rw [if_pos h]
  cases min_liq <;>
    simp [bumpHigh, RiskLevel.ltb, RiskLevel.orderIndex]

/-- C7: a margin ratio at or above margin_ratio_critical yields
risk_level = CRITICAL, and should_pause_trading returns True exactly when
the risk level is CRITICAL or the current drawdown reaches max_drawdown. -/
theorem critical_margin_and_pause (cfg : Config) (peak total_equity : ℚ)
    (mr : ℚ) (mro : Option ℚ) (fps : List FuturesPositionInfo)
    (positions : List Position)
    (h : mr ≥ cfg.risk.margin_ratio_critical) :
    (calculate_risk_metrics cfg peak total_equity (some mr) fps
        positions).risk_level = RiskLevel.CRITICAL ∧
      ((should_pause_trading cfg peak total_equity mro fps positions).1 =
          true ↔
        (calculate_risk_metrics cfg peak total_equity mro fps
            positions).risk_level = RiskLevel.CRITICAL ∨
          (calculate_risk_metrics cfg peak total_equity mro fps
              positions).current_drawdown ≥ cfg.risk.max_drawdown) := by
  constructor
  · simp only [calculate_risk_metrics]
    exact riskLevelFrom_critical cfg mr _ _ _ h
  · simp only [should_pause_trading]
    split_ifs with hc hd
    · simp [hc]
    · simp [hd]
    · simp [hc, hd]

/-- Witness for `critical_margin_and_pause` at the spec's concrete input
(margin ratio 0.9 against the default critical threshold 0.85). -/
theorem critical_margin_and_pause_witness :
    ((9 : ℚ)/10 ≥ defaultConfig.risk.margin_ratio_critical) ∧
      ((calculate_risk_metrics defaultConfig 10000 10000 (some (9/10)) []
          []).risk_level = RiskLevel.CRITICAL ∧
        ((should_pause_trading defaultConfig 10000 10000 (some (9/10)) []
            []).1 = true ↔
          (calculate_risk_metrics defaultConfig 10000 10000 (some (9/10))
              [] []).risk_level = RiskLevel.CRITICAL ∨
            (calculate_risk_metrics defaultConfig 10000 10000 (some (9/10))
                [] []).current_drawdown ≥
              defaultConfig.risk.max_drawdown)) :=
  ⟨by norm_num [defaultConfig],
    critical_margin_and_pause defaultConfig 10000 10000 (9/10)
      (some (9/10)) [] [] (by norm_num [defaultConfig])⟩

/-- C8 (code bug): opening a 1000 USDT paper position at spot = 50000,
futures = 50050 and closing at the same prices gives
spot_pnl = futures_pnl = 0, but the combined balances RISE by
1000 − 2.8 (the position size minus the four fees) instead of falling by
the 2.8 of total fees, and the reported realized P&L is −1.4 (close fees
only): close_position credits the full notional of both legs although
open_position debited only half of it from each balance. -/
theorem paper_round_trip_mints_cash :
    ((PaperTrader.init 10000).open_position "BTCUSDT"
        "long_spot_short_perp" 1000 (3/10000) 50000 50050).success =
      true ∧
    (((PaperTrader.init 10000).open_position "BTCUSDT"
        "long_spot_short_perp" 1000 (3/10000) 50000
        50050).trader.close_position "BTCUSDT" 50000 50050).success =
      true ∧
    (((PaperTrader.init 10000).open_position "BTCUSDT"
        "long_spot_short_perp" 1000 (3/10000) 50000
        50050).trader.close_position "BTCUSDT" 50000 50050).spot_pnl =
      0 ∧
    (((PaperTrader.init 10000).open_position "BTCUSDT"
        "long_spot_short_perp" 1000 (3/10000) 50000
        50050).trader.close_position "BTCUSDT" 50000
        50050).futures_pnl = 0 ∧
    ((((PaperTrader.init 10000).open_position "BTCUSDT"
        "long_spot_short_perp" 1000 (3/10000) 50000
        50050).trader.close_position "BTCUSDT" 50000
        50050).trader.spot_balance +
      (((PaperTrader.init 10000).open_position "BTCUSDT"
          "long_spot_short_perp" 1000 (3/10000) 50000
          50050).trader.close_position "BTCUSDT" 50000
          50050).trader.futures_balance) -
        ((PaperTrader.init 10000).spot_balance +
          (PaperTrader.init 10000).futures_balance) = 1000 - 14/5 ∧
    (((PaperTrader.init 10000).open_position "BTCUSDT"
        "long_spot_short_perp" 1000 (3/10000) 50000
        50050).trader.close_position "BTCUSDT" 50000
        50050).realized_pnl = -(7/5) ∧
    (1000 - 14/5 : ℚ) ≠ -(14/5) := by
  norm_num [PaperTrader.init, PaperTrader.open_position,
    PaperTrader.close_position, PaperTrader.findPosition, List.find?]

/-- C9: on the same side, futures quantity, mark price and funding rate,
the bot loop's funding-payment amount equals the paper trader's, both
being position_value × funding_rate for the long-spot/short-perp side and
its negation for the short-spot/long-perp side. -/
theorem funding_payment_bot_eq_paper (p : Position) (pp : PaperPosition)
    (funding_data : FundingRateData)
    (hside : pp.side = p.side.value)
    (hqty : pp.futures_quantity = p.futures_quantity) :
    bot_funding_payment_amount p funding_data =
      paper_funding_payment_amount pp funding_data.funding_rate
        funding_data.mark_price ∧
      bot_funding_payment_amount p funding_data =
        (if p.side = PositionSide.LONG_SPOT_SHORT_PERP then
          p.futures_quantity * funding_data.mark_price *
            funding_data.funding_rate
        else
          -(p.futures_quantity * funding_data.mark_price) *
            funding_data.funding_rate) := by
  unfold bot_funding_payment_amount paper_funding_payment_amount
  rw [hside, hqty]
  cases hs : p.side <;> simp [PositionSide.value, hs]

/-- Witness for `funding_payment_bot_eq_paper` at a concrete input. -/
theorem funding_payment_bot_eq_paper_witness :
    ("long_spot_short_perp" =
        samplePositionLong.side.value ∧
      (1 : ℚ)/50 = samplePositionLong.futures_quantity) ∧
      (bot_funding_payment_amount samplePositionLong
          { symbol := "BTCUSDT", funding_rate := 5/10000
            mark_price := 50000 } =
        paper_funding_payment_amount
          { symbol := "BTCUSDT", side := "long_spot_short_perp"
            spot_quantity := 1/50, spot_entry_price := 50000
            futures_quantity := 1/50, futures_entry_price := 50000
            entry_funding_rate := 5/10000 }
          (5/10000) 50000) :=
  ⟨⟨rfl, rfl⟩,
    (funding_payment_bot_eq_paper samplePositionLong
      { symbol := "BTCUSDT", side := "long_spot_short_perp"
        spot_quantity := 1/50, spot_entry_price := 50000
        futures_quantity := 1/50, futures_entry_price := 50000
        entry_funding_rate := 5/10000 }
      { symbol := "BTCUSDT", funding_rate := 5/10000, mark_price := 50000 }
      rfl rfl).1⟩

/-- Witness for `calculate_position_size_bounds` at a concrete input. -/
theorem calculate_position_size_bounds_witness :
    (0 : ℚ) < 10000 ∧
      (0 ≤ calculate_position_size defaultConfig 10000 0 0 ∧
        (calculate_position_size defaultConfig 10000 0 0 = 0 ∨
          (defaultConfig.trading.min_order_value ≤
              calculate_position_size defaultConfig 10000 0 0 ∧
            calculate_position_size defaultConfig 10000 0 0 ≤
              10000 * defaultConfig.strategy.position_size_pct))) :=
  ⟨by norm_num,
    calculate_position_size_bounds defaultConfig 10000 0 0 (by norm_num)⟩

end Funding
